import Mathlib

/-!
Shallow embedding of the `shows_review` repository: an Express application
(`part_000`) wiring three GET routes to the template-rendering handlers of
`src/controllers/routes.js`.  Each handler calls `res.render(template, context)`
with literal values; the embedding turns each handler into a function from an
inbound request to the view descriptor it hands the rendering collaborator,
and models the app's route table as the dispatch function below.
-/

/-- HTTP request methods relevant to the route table. -/
inductive Method where
  | GET
  | POST
  | PUT
  | DELETE
  | HEAD
  | PATCH
deriving DecidableEq, Repr

/-- An inbound HTTP request: method and path drive routing; headers, query
string and body are carried so that purity of handlers in every other field
can be stated. -/
structure Request where
  method : Method
  path : String
  headers : List (String × String)
  query : List (String × String)
  body : String
deriving DecidableEq, Repr

/-- The pair passed to `res.render(templateName, context)`: a template name and
a context object, modelled as an ordered list of string key/value pairs. -/
structure ViewDescriptor where
  templateName : String
  context : List (String × String)
deriving DecidableEq, Repr

/-- JavaScript object key access on the context mapping: first binding of the
key wins, `none` when the key is absent. -/
def lookupContext : List (String × String) → String → Option String
  | [], _ => none
  | (k, v) :: rest, key => if k = key then some v else lookupContext rest key

/-- `renderHome` from `src/controllers/routes.js`: ignores the request and
renders the `home` template with the literal title and page identifier. -/
def renderHome (_req : Request) : ViewDescriptor :=
  { templateName := "home"
    context := [("title", "Home - Shows Review"), ("currentPage", "home")] }

/-- `renderMovies` from `src/controllers/routes.js`. -/
def renderMovies (_req : Request) : ViewDescriptor :=
  { templateName := "movies"
    context := [("title", "Movies - Shows Review"), ("currentPage", "movies")] }

/-- `renderTVShows` from `src/controllers/routes.js`. -/
def renderTVShows (_req : Request) : ViewDescriptor :=
  { templateName := "tv-shows"
    context := [("title", "TV Shows - Shows Review"), ("currentPage", "tv-shows")] }

/-- The three route handlers the app registers. -/
def pageHandlers : List (Request → ViewDescriptor) :=
  [renderHome, renderMovies, renderTVShows]

/-- Outcome of presenting a request to the app: the static middleware serves
it, a matched handler's descriptor is rendered with status 200, or Express
falls through to its default 404 response. -/
inductive Outcome where
  | staticAsset
  | rendered (status : Nat) (view : ViewDescriptor)
  | notFound (status : Nat)
deriving DecidableEq, Repr

/-- The app's request pipeline from `part_000`: `express.static` middleware
first (modelled by the predicate `sserve`, out of scope for this core), then
the three `app.get` registrations in source order, then the framework's
default 404 terminal outcome. -/
def dispatch (sserve : String → Bool) (req : Request) : Outcome :=
  if sserve req.path then Outcome.staticAsset
  else if req.method = Method.GET ∧ req.path = "/" then
    Outcome.rendered 200 (renderHome req)
  else if req.method = Method.GET ∧ req.path = "/movies" then
    Outcome.rendered 200 (renderMovies req)
  else if req.method = Method.GET ∧ req.path = "/tv-shows" then
    Outcome.rendered 200 (renderTVShows req)
  else Outcome.notFound 404

/-- Processing a sequence of requests: the app holds no per-request mutable
state, so a run is the dispatch of each request in order. -/
def serverRun (sserve : String → Bool) (reqs : List Request) : List Outcome :=
  reqs.map (dispatch sserve)

/-- `const PORT = process.env.PORT || 3000` from `part_000`: the environment
variable is a string when present; `||` keeps it when truthy (any non-empty
string) and otherwise yields the numeric literal 3000. -/
def resolvePort (env : Option String) : String ⊕ Nat :=
  match env with
  | some s => if s = "" then Sum.inr 3000 else Sum.inl s
  | none => Sum.inr 3000

/-- Dispatch inspects only the method and path of a request; the handlers
embed literals, so the outcome agrees on any two requests sharing both. -/
theorem dispatch_congr (sserve : String → Bool) (r1 r2 : Request)
    (hm : r1.method = r2.method) (hp : r1.path = r2.path) :
    dispatch sserve r1 = dispatch sserve r2 := by
  unfold dispatch renderHome renderMovies renderTVShows
  rw [hm, hp]

/-- Claim C1: every GET request to `/` makes `renderHome` return the view
descriptor with template `home` and context exactly
`{title: "Home - Shows Review", currentPage: "home"}`; the handler is total,
so it succeeds on every input request (the theorem needs no precondition at
all: the handler ignores the request entirely). -/
theorem C1_renderHome_descriptor (r : Request) :
    renderHome r =
      { templateName := "home"
        context := [("title", "Home - Shows Review"), ("currentPage", "home")] } :=
  rfl

/-- Claim C2: every GET request to `/movies` makes `renderMovies` return the
view descriptor with template `movies` and context exactly
`{title: "Movies - Shows Review", currentPage: "movies"}`; total, hence it
always succeeds. -/
theorem C2_renderMovies_descriptor (r : Request) :
    renderMovies r =
      { templateName := "movies"
        context := [("title", "Movies - Shows Review"), ("currentPage", "movies")] } :=
  rfl

/-- Claim C3: every GET request to `/tv-shows` makes `renderTVShows` return
the view descriptor with template `tv-shows` and context exactly
`{title: "TV Shows - Shows Review", currentPage: "tv-shows"}`; total, hence it
always succeeds. -/
theorem C3_renderTVShows_descriptor (r : Request) :
    renderTVShows r =
      { templateName := "tv-shows"
        context := [("title", "TV Shows - Shows Review"), ("currentPage", "tv-shows")] } :=
  rfl

/-- Claim C4: a request the static middleware does not serve and that matches
no route registration — any non-GET method, or any GET to a path outside
`{/, /movies, /tv-shows}` — reaches the defined terminal outcome `notFound`
with status 404, invoking no handler; `dispatch` is total, so no exception
aborts the run. -/
theorem C4_unmatched_yields_404 (sserve : String → Bool) (r : Request)
    (hstatic : sserve r.path = false)
    (hroute : ¬ (r.method = Method.GET ∧
      (r.path = "/" ∨ r.path = "/movies" ∨ r.path = "/tv-shows"))) :
    dispatch sserve r = Outcome.notFound 404 := by
  by_cases hm : r.method = Method.GET
  · have h1 : ¬ r.path = "/" := fun hc => hroute ⟨hm, Or.inl hc⟩
    have h2 : ¬ r.path = "/movies" := fun hc => hroute ⟨hm, Or.inr (Or.inl hc)⟩
    have h3 : ¬ r.path = "/tv-shows" := fun hc => hroute ⟨hm, Or.inr (Or.inr hc)⟩
    simp [dispatch, hstatic, h1, h2, h3]
  · simp [dispatch, hstatic, hm]

/-- Witness for C4: `GET /nonexistent` with the static collaborator serving
nothing lands on the 404 terminal outcome. -/
theorem C4_unmatched_yields_404_witness :
    dispatch (fun _ => false)
      { method := Method.GET, path := "/nonexistent", headers := [],
        query := [], body := "" } = Outcome.notFound 404 :=
  C4_unmatched_yields_404 (fun _ => false)
    { method := Method.GET, path := "/nonexistent", headers := [],
      query := [], body := "" } rfl (by decide)

/-- Claim C5: whichever of the three handlers runs, and whatever the request,
if the produced context contains the key `currentPage` then its value lies in
the closed set `{home, movies, tv-shows}`. -/
theorem C5_currentPage_closed_set (h : Request → ViewDescriptor)
    (hmem : h ∈ pageHandlers) (r : Request) (v : String)
    (hv : lookupContext (h r).context "currentPage" = some v) :
    v = "home" ∨ v = "movies" ∨ v = "tv-shows" := by
  simp only [pageHandlers, List.mem_cons, List.not_mem_nil, or_false] at hmem
  rcases hmem with hmem | hmem | hmem <;> subst hmem
  · have hc : lookupContext (renderHome r).context "currentPage" = some "home" := rfl
    rw [hc] at hv
    exact Or.inl (Option.some.inj hv).symm
  · have hc : lookupContext (renderMovies r).context "currentPage" = some "movies" := rfl
    rw [hc] at hv
    exact Or.inr (Or.inl (Option.some.inj hv).symm)
  · have hc : lookupContext (renderTVShows r).context "currentPage" = some "tv-shows" := rfl
    rw [hc] at hv
    exact Or.inr (Or.inr (Option.some.inj hv).symm)

/-- Witness for C5: `renderMovies` on a concrete request carries a
`currentPage` value inside the closed navigation set. -/
theorem C5_currentPage_closed_set_witness :
    "movies" = "home" ∨ "movies" = "movies" ∨ "movies" = "tv-shows" :=
  C5_currentPage_closed_set renderMovies (by simp [pageHandlers])
    { method := Method.GET, path := "/movies", headers := [], query := [], body := "" }
    "movies" rfl

/-- Claim C6: in any run over any sequence of requests, two GET requests to
the same path — wherever they sit in the sequence, however the other requests
interleave — receive identical outcomes (hence identical ViewDescriptors);
the run is the independent dispatch of each request, so no invocation mutates
state observable by another. -/
theorem C6_two_run_determinism (sserve : String → Bool) (reqs : List Request)
    (i j : Nat) (r1 r2 : Request)
    (h1 : reqs[i]? = some r1) (h2 : reqs[j]? = some r2)
    (hm1 : r1.method = Method.GET) (hm2 : r2.method = Method.GET)
    (hp : r1.path = r2.path) :
    (serverRun sserve reqs)[i]? = some (dispatch sserve r1) ∧
    (serverRun sserve reqs)[j]? = some (dispatch sserve r1) := by
  refine ⟨?_, ?_⟩
  · simp [serverRun, List.getElem?_map, h1]
  · have hsame : dispatch sserve r2 = dispatch sserve r1 :=
      dispatch_congr sserve r2 r1 (hm2.trans hm1.symm) hp.symm
    simp [serverRun, List.getElem?_map, h2, hsame]

/-- Witness for C6: two GET `/` requests differing in headers and body and
separated by an unrelated POST receive the same outcome at positions 0, 2. -/
theorem C6_two_run_determinism_witness :
    (serverRun (fun _ => false)
      [{ method := Method.GET, path := "/", headers := [("x", "1")], query := [], body := "" },
       { method := Method.POST, path := "/movies", headers := [], query := [], body := "p" },
       { method := Method.GET, path := "/", headers := [], query := [], body := "b" }])[0]? =
      some (dispatch (fun _ => false)
        { method := Method.GET, path := "/", headers := [("x", "1")], query := [], body := "" }) ∧
    (serverRun (fun _ => false)
      [{ method := Method.GET, path := "/", headers := [("x", "1")], query := [], body := "" },
       { method := Method.POST, path := "/movies", headers := [], query := [], body := "p" },
       { method := Method.GET, path := "/", headers := [], query := [], body := "b" }])[2]? =
      some (dispatch (fun _ => false)
        { method := Method.GET, path := "/", headers := [("x", "1")], query := [], body := "" }) :=
  C6_two_run_determinism (fun _ => false) _ 0 2
    { method := Method.GET, path := "/", headers := [("x", "1")], query := [], body := "" }
    { method := Method.GET, path := "/", headers := [], query := [], body := "b" }
    rfl rfl rfl rfl rfl

/-- Claim C7: each of the three handlers is a constant function of the
request: any two requests, however their headers, query, body, method or path
differ, are mapped to the same ViewDescriptor — no branching on request
content, no I/O, no lookups. -/
theorem C7_handlers_constant (h : Request → ViewDescriptor)
    (hmem : h ∈ pageHandlers) (r1 r2 : Request) : h r1 = h r2 := by
  simp only [pageHandlers, List.mem_cons, List.not_mem_nil, or_false] at hmem
  rcases hmem with hmem | hmem | hmem <;> subst hmem <;> rfl

/-- Witness for C7: `renderHome` yields the same descriptor on two requests
differing in headers and body. -/
theorem C7_handlers_constant_witness :
    renderHome
      { method := Method.GET, path := "/", headers := [("a", "1")], query := [], body := "" } =
    renderHome
      { method := Method.GET, path := "/", headers := [], query := [("q", "z")], body := "b" } :=
  C7_handlers_constant renderHome (by simp [pageHandlers]) _ _

/-- Claim C8: the listening port is the externally supplied value when a
(non-empty, hence truthy) one is set, and the fixed default 3000 when the
environment variable is unset. -/
theorem C8_port_resolution (env : Option String) :
    (∀ s, env = some s → s ≠ "" → resolvePort env = Sum.inl s) ∧
    (env = none → resolvePort env = Sum.inr 3000) := by
  refine ⟨fun s hs hne => ?_, fun hn => ?_⟩
  · subst hs
    simp [resolvePort, hne]
  · subst hn
    rfl

/-- Witness for C8: with the variable set to `"8080"` the port is `"8080"`;
with it unset the port is 3000. -/
theorem C8_port_resolution_witness :
    resolvePort (some "8080") = Sum.inl "8080" ∧ resolvePort none = Sum.inr 3000 :=
  ⟨(C8_port_resolution (some "8080")).1 "8080" rfl (by decide),
   (C8_port_resolution none).2 rfl⟩

/-- Claim C9 (implicit): for every handler and request, the descriptor's
template name coincides with the `currentPage` value in its context, so the
rendered template and the navigation-highlight identifier always agree. -/
theorem C9_template_matches_currentPage (h : Request → ViewDescriptor)
    (hmem : h ∈ pageHandlers) (r : Request) :
    lookupContext (h r).context "currentPage" = some (h r).templateName := by
  simp only [pageHandlers, List.mem_cons, List.not_mem_nil, or_false] at hmem
  rcases hmem with hmem | hmem | hmem <;> subst hmem <;> rfl

/-- Witness for C9: `renderTVShows` on a concrete request. -/
theorem C9_template_matches_currentPage_witness :
    lookupContext
      (renderTVShows
        { method := Method.GET, path := "/tv-shows", headers := [], query := [], body := "" }).context
      "currentPage" =
    some (renderTVShows
      { method := Method.GET, path := "/tv-shows", headers := [], query := [], body := "" }).templateName :=
  C9_template_matches_currentPage renderTVShows (by simp [pageHandlers]) _

/-- Claim C10 (implicit): every descriptor produced by any of the three
handlers has a context whose key list is exactly `[title, currentPage]` — no
key omitted, none added. -/
theorem C10_context_keys_exact (h : Request → ViewDescriptor)
    (hmem : h ∈ pageHandlers) (r : Request) :
    (h r).context.map Prod.fst = ["title", "currentPage"] := by
  simp only [pageHandlers, List.mem_cons, List.not_mem_nil, or_false] at hmem
  rcases hmem with hmem | hmem | hmem <;> subst hmem <;> rfl

/-- Witness for C10: `renderHome` on a concrete request. -/
theorem C10_context_keys_exact_witness :
    (renderHome
      { method := Method.GET, path := "/", headers := [], query := [], body := "" }).context.map
      Prod.fst = ["title", "currentPage"] :=
  C10_context_keys_exact renderHome (by simp [pageHandlers]) _
